import Mathlib

/-
  Verification of the kaiandkaro car-dealership catalog core.

  Shallow embedding of src/main_dealer (models.py, views.py, forms.py):
  the relational store is a list of rows per entity, Django querysets are
  list pipelines, and request handlers are functions from a database
  snapshot and a request to an Except value (an error models an uncaught
  exception escaping the handler).  DecimalField(12,2) money values are
  embedded as integers counted in hundredths of a currency unit, integer
  primary keys as Nat, timestamps as Nat ticks (creation order).  Ordering
  of rows inside a list is the row insertion order; a queryset with ties
  under an ORDER BY key is embedded as a stable sort over that order.
  String manipulation is carried out over character lists so that every
  definition evaluates inside the kernel.
-/

deriving instance DecidableEq for Except

namespace KaiKaro

/-- Python str.strip whitespace set: space, tab, newline, return, vertical
tab, form feed. -/
def isPySpace (c : Char) : Bool :=
  c.toNat == 32 || c.toNat == 9 || c.toNat == 10 || c.toNat == 13 ||
    c.toNat == 11 || c.toNat == 12

/-- Strip leading and trailing whitespace from a character list. -/
def trimChars (l : List Char) : List Char :=
  ((l.dropWhile isPySpace).reverse.dropWhile isPySpace).reverse

/-- Python str.strip on a string. -/
def strTrim (s : String) : String :=
  String.mk (trimChars s.toList)

/-- A non-empty all-digit character list read as a natural number. -/
def digitsToNat? (l : List Char) : Option Nat :=
  if l ≠ [] ∧ l.all Char.isDigit then
    some (l.foldl (fun n c => n * 10 + (c.toNat - 48)) 0)
  else none

/-- Python int(str) conversion, as applied by the ORM for integer columns
and by Paginator page-number handling: optional surrounding whitespace,
optional sign, then decimal digits. -/
def pyInt? (s : String) : Option Int :=
  match trimChars s.toList with
  | '-' :: rest => (digitsToNat? rest).map (fun n => -(n : Int))
  | '+' :: rest => (digitsToNat? rest).map (fun n => (n : Int))
  | l => (digitsToNat? l).map (fun n => (n : Int))

/-- Split a character list at every occurrence of a separator. -/
def splitOnChar (sep : Char) : List Char → List (List Char)
  | [] => [[]]
  | c :: rest =>
    let r := splitOnChar sep rest
    if c = sep then [] :: r
    else
      match r with
      | [] => [[c]]
      | h :: t => (c :: h) :: t

/-- A parsed fixed-point decimal literal: the signed digit string and the
number of fractional digits; its value is num / 10 ^ fracDigits. -/
structure DecimalLit where
  num : Int
  fracDigits : Nat
deriving DecidableEq

/-- decimal.Decimal(str) conversion as applied by the ORM when a raw
string is compared against a DecimalField column, restricted to plain
fixed-point literals: optional sign, digits, optional fractional part. -/
def parseDecimal? (s : String) : Option DecimalLit :=
  let t := trimChars s.toList
  let p : Int × List Char :=
    match t with
    | '-' :: rest => (-1, rest)
    | '+' :: rest => (1, rest)
    | l => (1, l)
  match splitOnChar '.' p.2 with
  | [a] => (digitsToNat? a).map (fun n => ⟨p.1 * n, 0⟩)
  | [a, b] =>
    if a = [] ∧ b = [] then none
    else
      match (if a = [] then some 0 else digitsToNat? a),
            (if b = [] then some 0 else digitsToNat? b) with
      | some n, some f =>
        some ⟨p.1 * ((n : Int) * (10 : Int) ^ b.length + f), b.length⟩
      | _, _ => none
  | _ => none

/-- Exact comparison: the decimal literal p is at most the hundredths
value v, that is p.num / 10 ^ p.fracDigits ≤ v / 100. -/
def litLeCents (p : DecimalLit) (v : Int) : Bool :=
  decide (p.num * 100 ≤ v * (10 : Int) ^ p.fracDigits)

/-- Exact comparison: the hundredths value v is at most the decimal
literal p. -/
def centsLeLit (v : Int) (p : DecimalLit) : Bool :=
  decide (v * (10 : Int) ^ p.fracDigits ≤ p.num * 100)

/-- ASCII lower-casing of one character, the case folding SQLite applies
in case-insensitive LIKE lookups. -/
def charLower (c : Char) : Char :=
  if 'A' ≤ c ∧ c ≤ 'Z' then Char.ofNat (c.toNat + 32) else c

/-- The ORM icontains lookup: case-insensitive substring test. -/
def icontains (needle hay : String) : Bool :=
  decide (needle.toList.map charLower <:+: hay.toList.map charLower)

/-- Lexicographic code-point comparison of character lists, the ORDER BY
collation on text columns. -/
def charListLe : List Char → List Char → Bool
  | [], _ => true
  | _ :: _, [] => false
  | a :: as, b :: bs =>
    if a.toNat < b.toNat then true
    else if b.toNat < a.toNat then false
    else charListLe as bs

/-- ORDER BY comparison on a text column. -/
def strLe (a b : String) : Bool :=
  charListLe a.toList b.toList

/-- models.Brand (models.py): integer pk, unique name, active flag. -/
structure Brand where
  id : Nat
  name : String
  is_active : Bool
deriving DecidableEq

/-- models.Category (models.py): integer pk, unique name. -/
structure Category where
  id : Nat
  name : String
deriving DecidableEq

/-- models.CarModel (models.py): integer pk, brand fk, optional category
fk, active flag. -/
structure CarModel where
  id : Nat
  brand_id : Nat
  name : String
  category_id : Option Nat
  is_active : Bool
deriving DecidableEq

/-- models.Car (models.py).  Columns read by the verified operations;
presentation-only columns (engine size, horsepower, doors, seats,
location, SEO metadata other than title/description) are not read by any
verified operation and are omitted from the embedding.  Money columns are
in hundredths of a currency unit; created_at is the auto_now_add
timestamp, embedded as a creation-order tick. -/
structure Car where
  id : Nat
  stock_number : String
  brand_id : Nat
  car_model_id : Nat
  year : Nat
  car_type : String
  color : String
  mileage : Nat
  transmission : String
  fuel_type : String
  condition : String
  selling_price : Int
  dealer_discount : Int
  status : String
  is_featured : Bool
  is_for_rent : Bool
  is_for_sale : Bool
  title : String
  description : String
  created_at : Nat
deriving DecidableEq

/-- Car.final_price (models.py line 181): selling price minus dealer
discount, recomputed on each read, with no floor at zero. -/
def final_price (c : Car) : Int :=
  c.selling_price - c.dealer_discount

/-- The tables read by car_list_view. -/
structure DB where
  categories : List Category
  brands : List Brand
  car_models : List CarModel
  cars : List Car
deriving DecidableEq

/-- Brand name reached through the Car.brand foreign key
(brand__name in the search lookup). -/
def brand_name (db : DB) (c : Car) : String :=
  ((db.brands.find? (fun b => b.id == c.brand_id)).map (fun b => b.name)).getD ""

/-- CarModel name reached through the Car.car_model foreign key
(car_model__name in the search lookup). -/
def car_model_name (db : DB) (c : Car) : String :=
  ((db.car_models.find? (fun m => m.id == c.car_model_id)).map (fun m => m.name)).getD ""

/-- Brand name reached through the CarModel.brand foreign key
(brand__name in the model-facet ordering). -/
def model_brand_name (db : DB) (m : CarModel) : String :=
  ((db.brands.find? (fun b => b.id == m.brand_id)).map (fun b => b.name)).getD ""

/-- The raw GET parameters consumed by car_list_view (views.py line 68).
None models an absent key; a present key carries its raw string value. -/
structure CarListRequest where
  brand : Option String
  model : Option String
  year : Option String
  car_type : Option String
  condition : Option String
  transmission : Option String
  fuel_type : Option String
  color : Option String
  min_price : Option String
  max_price : Option String
  mileage : Option String
  availability : Option String
  search : Option String
  sort : Option String
  per_page : Option String
  page : Option String
deriving DecidableEq

/-- Python truthiness of request.GET.get(key): present and non-empty. -/
def present (o : Option String) : Bool :=
  o.getD "" ≠ ""

/-- One `if param: qs = qs.filter(col=param)` step against an integer
column: absent or empty parameters impose no constraint, a malformed
value raises at queryset evaluation. -/
def filterIntParam (p : Option String) (key : Car → Int) (cars : List Car) :
    Except String (List Car) :=
  match p with
  | none => .ok cars
  | some s =>
    if s = "" then .ok cars
    else
      match pyInt? s with
      | some v => .ok (cars.filter (fun c => key c == v))
      | none => .error "ValueError: invalid literal for int"

/-- One price-bound step against the DecimalField selling_price column:
absent or empty parameters impose no constraint, a malformed value raises
at queryset evaluation.  keep receives the car and the parsed bound. -/
def filterPriceParam (p : Option String) (keep : Car → DecimalLit → Bool)
    (cars : List Car) : Except String (List Car) :=
  match p with
  | none => .ok cars
  | some s =>
    if s = "" then .ok cars
    else
      match parseDecimal? s with
      | some v => .ok (cars.filter (fun c => keep c v))
      | none => .error "InvalidOperation: invalid decimal literal"

/-- One `if param: qs = qs.filter(col=param)` step against a CharField
column: exact match, never fails. -/
def filterExactParam (p : Option String) (key : Car → String) (cars : List Car) :
    List Car :=
  match p with
  | none => cars
  | some s => if s = "" then cars else cars.filter (fun c => key c == s)

/-- The mileage bucket map of views.py lines 120-126. -/
def mileage_map (s : String) : Option Nat :=
  if s = "10" then some 10000
  else if s = "15" then some 15000
  else if s = "20" then some 20000
  else if s = "25" then some 25000
  else if s = "27" then some 27000
  else none

/-- views.py lines 117-128: the bucket filter applies only when the raw
value is a key of the map; any other present value is ignored. -/
def filterMileage (p : Option String) (cars : List Car) : List Car :=
  match p with
  | none => cars
  | some s =>
    if s = "" then cars
    else
      match mileage_map s with
      | some bound => cars.filter (fun c => c.mileage ≤ bound)
      | none => cars

/-- views.py lines 130-135: availability defaults to all; only the exact
values sale and rent constrain. -/
def filterAvailability (p : Option String) (cars : List Car) : List Car :=
  let availability := p.getD "all"
  if availability = "sale" then cars.filter (fun c => c.is_for_sale)
  else if availability = "rent" then cars.filter (fun c => c.is_for_rent)
  else cars

/-- views.py lines 105-107: case-insensitive substring match on color. -/
def filterColor (p : Option String) (cars : List Car) : List Car :=
  match p with
  | none => cars
  | some s => if s = "" then cars else cars.filter (fun c => icontains s c.color)

/-- views.py lines 137-145: four icontains conditions joined by OR. -/
def searchMatches (db : DB) (s : String) (c : Car) : Bool :=
  icontains s (brand_name db c) || icontains s (car_model_name db c) ||
    icontains s c.title || icontains s c.description

/-- views.py lines 137-145: the free-text search filter. -/
def filterSearch (db : DB) (p : Option String) (cars : List Car) : List Car :=
  match p with
  | none => cars
  | some s => if s = "" then cars else cars.filter (searchMatches db s)

/-- The filter cascade of views.py lines 72-145, in source order, over the
status=available base queryset. -/
def filtered_cars (db : DB) (req : CarListRequest) : Except String (List Car) :=
  let base := db.cars.filter (fun c => c.status == "available")
  match filterIntParam req.brand (fun c => (c.brand_id : Int)) base with
  | .error e => .error e
  | .ok cars1 =>
  match filterIntParam req.model (fun c => (c.car_model_id : Int)) cars1 with
  | .error e => .error e
  | .ok cars2 =>
  match filterIntParam req.year (fun c => (c.year : Int)) cars2 with
  | .error e => .error e
  | .ok cars3 =>
  let cars4 := filterExactParam req.car_type (fun c => c.car_type) cars3
  let cars5 := filterExactParam req.condition (fun c => c.condition) cars4
  let cars6 := filterExactParam req.transmission (fun c => c.transmission) cars5
  let cars7 := filterExactParam req.fuel_type (fun c => c.fuel_type) cars6
  let cars8 := filterColor req.color cars7
  match filterPriceParam req.min_price (fun c v => litLeCents v c.selling_price) cars8 with
  | .error e => .error e
  | .ok cars9 =>
  match filterPriceParam req.max_price (fun c v => centsLeLit c.selling_price v) cars9 with
  | .error e => .error e
  | .ok cars10 =>
  let cars11 := filterMileage req.mileage cars10
  let cars12 := filterAvailability req.availability cars11
  .ok (filterSearch db req.search cars12)

/-- views.py lines 149-154. -/
def valid_sorts : List String :=
  ["selling_price", "-selling_price", "year", "-year",
   "mileage", "-mileage", "created_at", "-created_at"]

/-- Boolean comparator of the ORDER BY key named by the sort parameter;
any name outside valid_sorts is routed to the model default -created_at
by effective_sort below. -/
def sortKeyLe (sort_by : String) (a b : Car) : Bool :=
  if sort_by = "selling_price" then decide (a.selling_price ≤ b.selling_price)
  else if sort_by = "-selling_price" then decide (b.selling_price ≤ a.selling_price)
  else if sort_by = "year" then decide (a.year ≤ b.year)
  else if sort_by = "-year" then decide (b.year ≤ a.year)
  else if sort_by = "mileage" then decide (a.mileage ≤ b.mileage)
  else if sort_by = "-mileage" then decide (b.mileage ≤ a.mileage)
  else if sort_by = "created_at" then decide (a.created_at ≤ b.created_at)
  else decide (b.created_at ≤ a.created_at)

/-- views.py lines 147-156: the sort parameter defaults to -created_at,
and a value outside valid_sorts leaves the Car.Meta default ordering
-created_at (models.py line 167) in force. -/
def effective_sort (req : CarListRequest) : String :=
  let sort_by := req.sort.getD "-created_at"
  if sort_by ∈ valid_sorts then sort_by else "-created_at"

/-- The ORDER BY of the car listing as a stable sort over insertion
order. -/
def sortCars (key : String) (cars : List Car) : List Car :=
  List.insertionSort (fun a b => sortKeyLe key a b = true) cars

/-- views.py lines 159-165: per_page defaults to 9 and must be one of
9, 15, 20; a malformed or out-of-set value falls back to 9. -/
def parse_per_page (p : Option String) : Nat :=
  match p with
  | none => 9
  | some s =>
    match pyInt? s with
    | none => 9
    | some v => if v = 9 ∨ v = 15 ∨ v = 20 then v.toNat else 9

/-- django Paginator.num_pages with allow_empty_first_page:
ceil(max(1, count) / per_page). -/
def num_pages (count per_page : Nat) : Nat :=
  max 1 ((count + per_page - 1) / per_page)

/-- django Paginator.get_page: a value that is not an integer (including
an absent one) yields page 1; an integer below 1 or beyond the last page
yields the last page. -/
def get_page_number (p : Option String) (np : Nat) : Nat :=
  match p with
  | none => 1
  | some s =>
    match pyInt? s with
    | none => 1
    | some v => if v < 1 then np else if v > np then np else v.toNat

/-- The context assembled by car_list_view: the page slice, pagination
counts, and the facet data of views.py lines 171-184. -/
structure CarListResult where
  page_cars : List Car
  page_number : Nat
  pages_total : Nat
  total_cars : Nat
  brands_facet : List Brand
  models_facet : List CarModel
  categories_facet : List Category
  years_facet : List Nat
  colors_facet : List String
  min_price_facet : Option Int
  max_price_facet : Option Int
deriving DecidableEq

/-- views.py line 177: Car.objects.values_list(year).distinct()
.order_by(-year) — the whole Car table, no status restriction. -/
def facet_years (db : DB) : List Nat :=
  List.insertionSort (fun a b : Nat => b ≤ a) ((db.cars.map (fun c => c.year)).dedup)

/-- views.py line 178: distinct colors over the whole Car table, ascending. -/
def facet_colors (db : DB) : List String :=
  List.insertionSort (fun a b => strLe a b = true) ((db.cars.map (fun c => c.color)).dedup)

/-- views.py line 172: active brands ordered by name. -/
def facet_brands (db : DB) : List Brand :=
  List.insertionSort (fun a b => strLe a.name b.name = true)
    (db.brands.filter (fun b => b.is_active))

/-- views.py line 173: active car models ordered by brand name then name. -/
def facet_models (db : DB) : List CarModel :=
  List.insertionSort
    (fun a b =>
      (if model_brand_name db a = model_brand_name db b then strLe a.name b.name
       else strLe (model_brand_name db a) (model_brand_name db b)) = true)
    (db.car_models.filter (fun m => m.is_active))

/-- views.py line 174: all categories ordered by name. -/
def facet_categories (db : DB) : List Category :=
  List.insertionSort (fun a b => strLe a.name b.name = true) db.categories

/-- views.py lines 181-184: global min and max selling price over the
whole Car table. -/
def facet_min_price (db : DB) : Option Int :=
  (db.cars.map (fun c => c.selling_price)).min?

def facet_max_price (db : DB) : Option Int :=
  (db.cars.map (fun c => c.selling_price)).max?

/-- car_list_view (views.py lines 68-201): filter cascade, sort, paginate,
facet computation.  An error is an uncaught exception escaping the view. -/
def car_list_view (db : DB) (req : CarListRequest) : Except String CarListResult :=
  match filtered_cars db req with
  | .error e => .error e
  | .ok fc =>
    let sc := sortCars (effective_sort req) fc
    let pp := parse_per_page req.per_page
    let np := num_pages sc.length pp
    let pn := get_page_number req.page np
    .ok {
      page_cars := (sc.drop ((pn - 1) * pp)).take pp
      page_number := pn
      pages_total := np
      total_cars := sc.length
      brands_facet := facet_brands db
      models_facet := facet_models db
      categories_facet := facet_categories db
      years_facet := facet_years db
      colors_facet := facet_colors db
      min_price_facet := facet_min_price db
      max_price_facet := facet_max_price db }

/-- models.CarImage (models.py line 222): car fk, main flag, display
order; the binary image payload and alt text play no part in the verified
operations. -/
structure CarImage where
  id : Nat
  car_id : Nat
  is_main : Bool
  order : Nat
deriving DecidableEq

/-- The bulk update CarImage.objects.filter(car=self.car,
is_main=True).update(is_main=False) of models.py line 240. -/
def clearMains (db : List CarImage) (cid : Nat) : List CarImage :=
  db.map (fun i =>
    if i.car_id == cid && i.is_main then { i with is_main := false } else i)

/-- super().save() of models.py line 241: update the row in place when
the pk already exists, append it otherwise. -/
def upsertImage (db : List CarImage) (img : CarImage) : List CarImage :=
  if db.any (fun i => i.id == img.id) then
    db.map (fun i => if i.id == img.id then img else i)
  else db ++ [img]

/-- CarImage.save (models.py lines 237-241): when the incoming row has
is_main set, first clear is_main on every image of the same car, then
write the row itself. -/
def carImageSave (db : List CarImage) (img : CarImage) : List CarImage :=
  upsertImage (if img.is_main then clearMains db img.car_id else db) img

/-- Number of images of a given car flagged as main. -/
def main_count (db : List CarImage) (cid : Nat) : Nat :=
  db.countP (fun i => i.car_id == cid && i.is_main)

/-- models.Customer (models.py line 266).  email is a plain EmailField
with no unique flag; the columns not touched by the lead-capture workflow
(user link, date of birth) are omitted. -/
structure Customer where
  id : Nat
  first_name : String
  last_name : String
  email : String
  phone : String
  address : String
  city : String
  country : String
  driving_license_number : String
  id_number : String
deriving DecidableEq

/-- models.Inquiry (models.py line 289): car fk, customer fk, the three
form-supplied columns.  customer is optional here because the view saves
the form with commit=False, leaving the fk unset until assigned. -/
structure Inquiry where
  id : Nat
  car_id : Nat
  customer : Option Nat
  inquiry_type : String
  message : String
  preferred_contact_method : String
deriving DecidableEq

/-- models.TestDrive (models.py line 413): car fk, customer fk, the
form-supplied columns. -/
structure TestDrive where
  id : Nat
  car_id : Nat
  customer : Option Nat
  scheduled_date : String
  duration_minutes : Nat
  pickup_location : String
  notes : String
deriving DecidableEq

/-- The tables written by the lead-capture workflow. -/
structure LeadState where
  customers : List Customer
  inquiries : List Inquiry
  test_drives : List TestDrive
deriving DecidableEq

/-- The raw field set posted to InquiryForm (forms.py lines 6-66). -/
structure InquiryFormData where
  first_name : String
  last_name : String
  email : String
  phone : String
  inquiry_type : String
  message : String
  preferred_contact_method : String
deriving DecidableEq

/-- The raw field set posted to TestDriveForm (forms.py lines 103-180). -/
structure TestDriveFormData where
  first_name : String
  last_name : String
  email : String
  phone : String
  driving_license_number : String
  scheduled_date : String
  duration_minutes : Nat
  pickup_location : String
  notes : String
deriving DecidableEq

/-- The phone RegexValidator of forms.py lines 33-36 and 130-133, pattern
anchored both sides: an optional plus sign, an optional literal 1, then
9 to 15 decimal digits. -/
def phone_matches (s : String) : Bool :=
  let l := s.toList
  let t := match l with
    | '+' :: rest => rest
    | _ => l
  let core := fun (u : List Char) =>
    u.all Char.isDigit && 9 ≤ u.length && u.length ≤ 15
  core t ||
    (match t with
     | '1' :: rest => core rest
     | _ => false)

/-- Abstraction of the django EmailValidator backing forms.EmailField:
one separator, non-empty local part, and a dotted all-non-empty-label
domain.  The full character-class rules of the source validator are not
modelled; no theorem below depends on the finer rules. -/
def email_valid (s : String) : Bool :=
  match splitOnChar '@' s.toList with
  | [userPart, domainPart] =>
    userPart ≠ [] && (splitOnChar '.' domainPart).all (fun l => l ≠ []) &&
      (splitOnChar '.' domainPart).length ≥ 2
  | _ => false

/-- A required CharField: django strips the value, then rejects empty. -/
def required_filled (s : String) : Bool :=
  strTrim s ≠ ""

/-- InquiryForm.is_valid: every declared field is required; email runs the
email validator and phone the RegexValidator (forms.py lines 6-66). -/
def inquiry_form_is_valid (d : InquiryFormData) : Bool :=
  required_filled d.first_name && required_filled d.last_name &&
    email_valid (strTrim d.email) && phone_matches (strTrim d.phone) &&
    required_filled d.inquiry_type && required_filled d.message &&
    required_filled d.preferred_contact_method

/-- TestDriveForm.is_valid: the customer fields plus the required driving
license number and scheduling fields (forms.py lines 103-180; notes is a
blank=True TextField and is optional). -/
def test_drive_form_is_valid (d : TestDriveFormData) : Bool :=
  required_filled d.first_name && required_filled d.last_name &&
    email_valid (strTrim d.email) && phone_matches (strTrim d.phone) &&
    required_filled d.driving_license_number &&
    required_filled d.scheduled_date && required_filled d.pickup_location

/-- Fresh integer pk for a customer insert. -/
def next_customer_id (cs : List Customer) : Nat :=
  (cs.map (fun c => c.id)).foldr max 0 + 1

/-- Customer.objects.get_or_create(email=..., defaults=...): get by exact
email; zero matches create a row from the defaults, one match is returned
as is, several matches raise MultipleObjectsReturned. -/
def get_or_create_customer (cs : List Customer) (em : String) (dflt : Customer) :
    Except String (List Customer × Customer) :=
  match cs.filter (fun c => c.email == em) with
  | [] =>
    let newC := { dflt with id := next_customer_id cs, email := em }
    .ok (cs ++ [newC], newC)
  | [c] => .ok (cs, c)
  | _ => .error "MultipleObjectsReturned"

/-- The Customer defaults shared by both form save paths: form fields for
name and phone, model-level defaults for the remaining columns
(country defaults to Kenya, models.py line 275). -/
def customer_defaults (first last phone dl : String) : Customer :=
  { id := 0, first_name := first, last_name := last, email := "",
    phone := phone, address := "", city := "", country := "Kenya",
    driving_license_number := dl, id_number := "" }

/-- InquiryForm.save with commit=True (forms.py lines 81-100): resolve
the customer by get_or_create on the cleaned email, then write the
inquiry row against the supplied car.  Returns the new state and the
resolved customer pk. -/
def inquiry_form_save (st : LeadState) (carId : Nat) (d : InquiryFormData) :
    Except String (LeadState × Nat) :=
  if inquiry_form_is_valid d then
    match get_or_create_customer st.customers (strTrim d.email)
        (customer_defaults (strTrim d.first_name) (strTrim d.last_name)
          (strTrim d.phone) "") with
    | .error e => .error e
    | .ok (cs, cust) =>
      .ok ({ st with
              customers := cs
              inquiries := st.inquiries ++
                [{ id := st.inquiries.length + 1, car_id := carId,
                   customer := some cust.id,
                   inquiry_type := strTrim d.inquiry_type,
                   message := strTrim d.message,
                   preferred_contact_method := strTrim d.preferred_contact_method }] },
            cust.id)
  else .error "ValidationError"

/-- TestDriveForm.save with commit=True (forms.py lines 191-217): resolve
the customer by get_or_create on the cleaned email (defaults carry the
submitted driving license), backfill the driving license when the
resolved customer has a blank one, then write the test-drive row. -/
def test_drive_form_save (st : LeadState) (carId : Nat) (d : TestDriveFormData) :
    Except String (LeadState × Nat) :=
  if test_drive_form_is_valid d then
    match get_or_create_customer st.customers (strTrim d.email)
        (customer_defaults (strTrim d.first_name) (strTrim d.last_name)
          (strTrim d.phone) (strTrim d.driving_license_number)) with
    | .error e => .error e
    | .ok (cs, cust) =>
      .ok ({ st with
              customers :=
                if cust.driving_license_number == "" then
                  cs.map (fun c =>
                    if c.id == cust.id then
                      { cust with
                        driving_license_number := strTrim d.driving_license_number }
                    else c)
                else cs
              test_drives := st.test_drives ++
                [{ id := st.test_drives.length + 1, car_id := carId,
                   customer := some cust.id,
                   scheduled_date := strTrim d.scheduled_date,
                   duration_minutes := d.duration_minutes,
                   pickup_location := strTrim d.pickup_location,
                   notes := strTrim d.notes }] },
            cust.id)
  else .error "ValidationError"

/-- A lead-capture submission: an inquiry or a test drive against a car. -/
inductive LeadSubmission where
  | inquiry (carId : Nat) (d : InquiryFormData)
  | testDrive (carId : Nat) (d : TestDriveFormData)
deriving DecidableEq

/-- Dispatch of a submission through the corresponding form save. -/
def submit_lead (st : LeadState) : LeadSubmission → Except String (LeadState × Nat)
  | .inquiry carId d => inquiry_form_save st carId d
  | .testDrive carId d => test_drive_form_save st carId d

/-- The cleaned email a submission resolves its customer by. -/
def lead_email : LeadSubmission → String
  | .inquiry _ d => strTrim d.email
  | .testDrive _ d => strTrim d.email

/-- Whether a submission is a test drive. -/
def lead_is_test_drive : LeadSubmission → Bool
  | .inquiry _ _ => false
  | .testDrive _ _ => true

/-- The cleaned driving license a test-drive submission supplies. -/
def lead_license : LeadSubmission → String
  | .inquiry _ _ => ""
  | .testDrive _ d => strTrim d.driving_license_number

/-- Row write of an Inquiry through the entity layer: the customer fk is
NOT NULL. -/
def inquiry_row_save (st : LeadState) (i : Inquiry) : Except String LeadState :=
  match i.customer with
  | none => .error "IntegrityError: NOT NULL constraint failed: customer_id"
  | some _ => .ok { st with inquiries := st.inquiries ++ [i] }

/-- car_detail_view POST handling of an inquiry submission (views.py
lines 223-231): an invalid form only re-renders; a valid form is saved
with commit=False, which skips the customer resolution of
InquiryForm.save, the car fk is assigned, and the row is saved with its
customer fk still unset. -/
def inquiry_post (st : LeadState) (carId : Nat) (d : InquiryFormData) :
    Except String LeadState :=
  if inquiry_form_is_valid d then
    let row : Inquiry :=
      { id := st.inquiries.length + 1, car_id := carId, customer := none,
        inquiry_type := strTrim d.inquiry_type, message := strTrim d.message,
        preferred_contact_method := strTrim d.preferred_contact_method }
    inquiry_row_save st row
  else .ok st

/-- Row write of a TestDrive through the entity layer: the customer fk is
NOT NULL. -/
def test_drive_row_save (st : LeadState) (t : TestDrive) : Except String LeadState :=
  match t.customer with
  | none => .error "IntegrityError: NOT NULL constraint failed: customer_id"
  | some _ => .ok { st with test_drives := st.test_drives ++ [t] }

/-- car_detail_view POST handling of a test-drive submission (views.py
lines 233-240), same commit=False shape as inquiry_post. -/
def test_drive_post (st : LeadState) (carId : Nat) (d : TestDriveFormData) :
    Except String LeadState :=
  if test_drive_form_is_valid d then
    let row : TestDrive :=
      { id := st.test_drives.length + 1, car_id := carId, customer := none,
        scheduled_date := strTrim d.scheduled_date,
        duration_minutes := d.duration_minutes,
        pickup_location := strTrim d.pickup_location, notes := strTrim d.notes }
    test_drive_row_save st row
  else .ok st

/-- Entity-level insert of a Customer row.  models.py lines 266-279
declare no unique column on Customer apart from the implicit integer pk:
email is a plain EmailField, so the only uniqueness check the store runs
for this table is the pk one. -/
def customer_insert (cs : List Customer) (c : Customer) : Except String (List Customer) :=
  if cs.any (fun x => x.id == c.id) then
    .error "UNIQUE constraint failed: main_dealer_customer.id"
  else .ok (cs ++ [c])

/-- Every lead row of the new state that is not carried over from the old
state references the given customer pk. -/
def new_leads_reference (old upd : LeadState) (cid : Nat) : Prop :=
  (∀ i ∈ upd.inquiries, i ∈ old.inquiries ∨ i.customer = some cid) ∧
  (∀ t ∈ upd.test_drives, t ∈ old.test_drives ∨ t.customer = some cid)

/-! Concrete rows and requests used by the closed instances below. -/

def brandT : Brand := { id := 1, name := "Toyota", is_active := true }

def modelC : CarModel :=
  { id := 1, brand_id := 1, name := "Camry", category_id := none, is_active := true }

def carA : Car :=
  { id := 1, stock_number := "ST01", brand_id := 1, car_model_id := 1,
    year := 2020, car_type := "new", color := "White", mileage := 15000,
    transmission := "automatic", fuel_type := "petrol", condition := "excellent",
    selling_price := 100000000, dealer_discount := 0, status := "available",
    is_featured := true, is_for_rent := false, is_for_sale := true,
    title := "2020 Toyota Camry", description := "Clean unit", created_at := 1 }

def carS : Car :=
  { carA with
    id := 2, stock_number := "ST02", year := 1999, color := "Red",
    selling_price := 50000000, status := "sold", created_at := 2,
    title := "1999 Toyota Camry" }

def carB : Car :=
  { carA with
    id := 3, stock_number := "ST03", year := 2018, color := "Blue",
    selling_price := 80000000, created_at := 3, title := "2018 Toyota Camry" }

def carNeg : Car :=
  { carA with
    id := 4, stock_number := "ST04", selling_price := 100000000,
    dealer_discount := 120000000, created_at := 4 }

def exDB : DB :=
  { categories := [], brands := [brandT], car_models := [modelC],
    cars := [carA, carS, carB] }

def reqEmpty : CarListRequest :=
  { brand := none, model := none, year := none, car_type := none,
    condition := none, transmission := none, fuel_type := none, color := none,
    min_price := none, max_price := none, mileage := none, availability := none,
    search := none, sort := none, per_page := none, page := none }

def reqFull : CarListRequest :=
  { reqEmpty with
    brand := some "1", year := some "2020", car_type := some "new",
    color := some "whi", min_price := some "500000", max_price := some "2000000",
    mileage := some "20", availability := some "sale", search := some "toy",
    sort := some "selling_price", per_page := some "15", page := some "1" }

def reqBadPrice : CarListRequest := { reqEmpty with min_price := some "abc" }

def emptyResult : CarListResult :=
  { page_cars := [], page_number := 0, pages_total := 0, total_cars := 0,
    brands_facet := [], models_facet := [], categories_facet := [],
    years_facet := [], colors_facet := [], min_price_facet := none,
    max_price_facet := none }

def exResFull : CarListResult :=
  match car_list_view exDB reqFull with
  | .ok r => r
  | .error _ => emptyResult

def exResEmpty : CarListResult :=
  match car_list_view exDB reqEmpty with
  | .ok r => r
  | .error _ => emptyResult

def exFiltered : List Car :=
  match filtered_cars exDB reqEmpty with
  | .ok l => l
  | .error _ => []

def img1 : CarImage := { id := 1, car_id := 1, is_main := true, order := 0 }

def img2 : CarImage := { id := 2, car_id := 1, is_main := true, order := 1 }

def stEmpty : LeadState := { customers := [], inquiries := [], test_drives := [] }

def inqGood : InquiryFormData :=
  { first_name := "Jane", last_name := "Doe", email := "jane@x.com",
    phone := "0712345678", inquiry_type := "purchase", message := "Interested",
    preferred_contact_method := "email" }

def inqBadPhone : InquiryFormData := { inqGood with phone := "12345" }

def tdGood : TestDriveFormData :=
  { first_name := "Jane", last_name := "Doe", email := "jane@x.com",
    phone := "0712345678", driving_license_number := "DL7",
    scheduled_date := "2026-01-01 10:00", duration_minutes := 30,
    pickup_location := "Showroom", notes := "" }

def custJane : Customer :=
  { id := 1, first_name := "Jane", last_name := "Doe", email := "jane@x.com",
    phone := "0712345678", address := "", city := "", country := "Kenya",
    driving_license_number := "", id_number := "" }

def custJane2 : Customer := { custJane with id := 2 }

def stJane : LeadState := { stEmpty with customers := [custJane] }

def exLead1 : LeadState × Nat :=
  match submit_lead stEmpty (.testDrive 1 tdGood) with
  | .ok p => p
  | .error _ => (stEmpty, 0)

def exLead2 : LeadState × Nat :=
  match submit_lead exLead1.1 (.inquiry 2 inqGood) with
  | .ok p => p
  | .error _ => (stEmpty, 0)

def exLead3 : LeadState × Nat :=
  match submit_lead stJane (.testDrive 1 tdGood) with
  | .ok p => p
  | .error _ => (stEmpty, 0)

/-! Theorems. -/

/-- C8: for every Car, final_price equals selling_price minus
dealer_discount exactly, recomputed as a pure function of the row, with
no floor at zero: a dealer_discount exceeding selling_price yields a
negative final_price, and selling_price 1,000,000 currency units with
dealer_discount 1,200,000 gives -200,000 (money is embedded in
hundredths, hence the factor 100). -/
theorem C8_final_price_exact :
    (∀ c : Car, final_price c = c.selling_price - c.dealer_discount) ∧
    (∀ c : Car, c.selling_price < c.dealer_discount → final_price c < 0) ∧
    (∀ c : Car, c.selling_price = 1000000 * 100 → c.dealer_discount = 1200000 * 100 →
      final_price c = -200000 * 100) := by
  refine ⟨fun c => rfl, fun c h => ?_, fun c h1 h2 => ?_⟩
  · simpa [final_price, sub_neg] using h
  · rw [final_price, h1, h2]; norm_num

/-- Witness for C8 at the concrete car with selling_price 1,000,000 and
dealer_discount 1,200,000 currency units. -/
theorem C8_final_price_exact_witness :
    final_price carNeg = -200000 * 100 ∧ final_price carNeg < 0 :=
  ⟨C8_final_price_exact.2.2 carNeg (by decide) (by decide),
   C8_final_price_exact.2.1 carNeg (by decide)⟩

/-- C9 counterexample: Customer.email carries no uniqueness constraint
(models.py line 271), so persisting a second Customer with an equal email
succeeds and leaves two rows with that email, instead of being rejected
with a uniqueness violation as the claim states. -/
theorem C9_counterexample :
    custJane2.email = custJane.email ∧
    customer_insert [custJane] custJane2 = .ok [custJane, custJane2] ∧
    (([custJane, custJane2]).filter (fun c => c.email == custJane.email)).length = 2 := by
  exact ⟨rfl, by decide, by decide⟩

/-- C9 amended: the Entity Model enforces no uniqueness on
Customer.email; an insert whose pk is fresh always succeeds, and a
duplicate email simply adds one more row carrying that email.  (The
declared uniqueness constraints sit on Car.stock_number, Car.vin_number,
slugs and the RentalRate (car, rate_type) pair, none of them on
Customer.) -/
theorem C9_email_not_unique :
    ∀ (cs : List Customer) (c : Customer),
      (∀ x ∈ cs, x.id ≠ c.id) →
      customer_insert cs c = .ok (cs ++ [c]) ∧
      ((cs ++ [c]).filter (fun x => x.email == c.email)).length =
        (cs.filter (fun x => x.email == c.email)).length + 1 := by
  intro cs c h
  constructor
  · have hany : cs.any (fun x => x.id == c.id) = false := by
      rw [List.any_eq_false]
      intro x hx
      simpa using h x hx
    simp [customer_insert, hany]
  · simp [List.filter_append]

/-- Witness for C9 amended at the concrete duplicate-email insert. -/
theorem C9_email_not_unique_witness :
    customer_insert [custJane] custJane2 = .ok ([custJane] ++ [custJane2]) ∧
    (([custJane] ++ [custJane2]).filter (fun x => x.email == custJane2.email)).length =
      (([custJane]).filter (fun x => x.email == custJane2.email)).length + 1 :=
  C9_email_not_unique [custJane] custJane2 (by decide)

/-- C6: an Inquiry or TestDrive submission that fails validation (missing
required field, malformed email, or a phone not matching the
9-to-15-digit pattern, such as "12345") aborts the whole POST with no
partial write: the handler returns the state unchanged, so no Customer
row is created or mutated and no Inquiry or TestDrive row is written.
The phone "12345" fails the pattern and invalidates any inquiry carrying
it. -/
theorem C6_validation_failure_writes_nothing :
    (∀ (st : LeadState) (carId : Nat) (d : InquiryFormData),
        inquiry_form_is_valid d = false → inquiry_post st carId d = .ok st) ∧
    (∀ (st : LeadState) (carId : Nat) (d : TestDriveFormData),
        test_drive_form_is_valid d = false → test_drive_post st carId d = .ok st) ∧
    phone_matches "12345" = false ∧
    (∀ d : InquiryFormData, strTrim d.phone = "12345" →
        inquiry_form_is_valid d = false) := by
  have hp : phone_matches "12345" = false := by decide
  refine ⟨?_, ?_, hp, ?_⟩
  · intro st carId d h
    simp [inquiry_post, h]
  · intro st carId d h
    simp [test_drive_post, h]
  · intro d h
    simp [inquiry_form_is_valid, h, hp]

/-- Witness for C6 at the concrete submission with phone "12345". -/
theorem C6_validation_failure_writes_nothing_witness :
    inquiry_post stJane 1 inqBadPhone = .ok stJane :=
  C6_validation_failure_writes_nothing.1 stJane 1 inqBadPhone (by decide)

theorem ids_clearMains (db : List CarImage) (cid : Nat) :
    (clearMains db cid).map (fun i => i.id) = db.map (fun i => i.id) := by
  unfold clearMains
  rw [List.map_map]
  refine List.map_congr_left (fun a _ => ?_)
  dsimp [Function.comp]
  split <;> rfl

theorem ids_replace (db : List CarImage) (img : CarImage) :
    (db.map (fun i => if i.id == img.id then img else i)).map (fun i => i.id) =
      db.map (fun i => i.id) := by
  rw [List.map_map]
  refine List.map_congr_left (fun a _ => ?_)
  dsimp [Function.comp]
  split
  · next h => exact (eq_of_beq h).symm
  · rfl

theorem main_count_clearMains_self (db : List CarImage) (cid : Nat) :
    main_count (clearMains db cid) cid = 0 := by
  unfold main_count clearMains
  rw [List.countP_map, List.countP_eq_zero]
  intro a _
  dsimp [Function.comp]
  split
  · simp
  · next h => simpa using h

theorem main_count_clearMains_other (db : List CarImage) (cid cid' : Nat)
    (h : cid' ≠ cid) :
    main_count (clearMains db cid) cid' = main_count db cid' := by
  unfold main_count clearMains
  rw [List.countP_map]
  refine List.countP_congr (fun a _ => ?_)
  dsimp [Function.comp]
  split
  · next hc =>
    have hc' : a.car_id = cid ∧ a.is_main = true := by simpa using hc
    have h2 : (a.car_id == cid') = false := by
      rw [hc'.1]
      simpa using Ne.symm h
    simp [h2]
  · exact Iff.rfl

theorem carImageSave_nodup (db : List CarImage) (img : CarImage)
    (h : (db.map (fun i => i.id)).Nodup) :
    ((carImageSave db img).map (fun i => i.id)).Nodup := by
  unfold carImageSave upsertImage
  set db1 := if img.is_main then clearMains db img.car_id else db with hdb1
  have hids : db1.map (fun i => i.id) = db.map (fun i => i.id) := by
    rw [hdb1]
    split
    · exact ids_clearMains db img.car_id
    · rfl
  have h1 : (db1.map (fun i => i.id)).Nodup := by rw [hids]; exact h
  split
  · rw [ids_replace, hids]; exact h
  · next hany =>
    have hnotin : img.id ∉ db1.map (fun i => i.id) := by
      intro hmem
      rcases List.mem_map.mp hmem with ⟨i, hi, hid⟩
      exact hany (List.any_eq_true.mpr ⟨i, hi, by simp [hid]⟩)
    rw [List.map_append]
    simp only [List.map_cons, List.map_nil]
    rw [List.nodup_append]
    refine ⟨h1, List.nodup_singleton _, ?_⟩
    intro x hx hx1
    rcases List.mem_singleton.mp hx1 with rfl
    exact hnotin hx

theorem carImageSave_main_count (db : List CarImage) (img : CarImage)
    (hnd : (db.map (fun i => i.id)).Nodup)
    (hinv : ∀ cid, main_count db cid ≤ 1) (cid : Nat) :
    main_count (carImageSave db img) cid ≤ 1 := by
  unfold carImageSave upsertImage
  set db1 := if img.is_main then clearMains db img.car_id else db with hdb1
  have hids : db1.map (fun i => i.id) = db.map (fun i => i.id) := by
    rw [hdb1]
    split
    · exact ids_clearMains db img.car_id
    · rfl
  have hc_self : img.is_main = true → main_count db1 img.car_id = 0 := by
    intro hm
    rw [hdb1, if_pos hm]
    exact main_count_clearMains_self db img.car_id
  have hc_le : ∀ c, main_count db1 c ≤ 1 := by
    intro c
    rw [hdb1]
    split
    · by_cases hcc : c = img.car_id
      · subst hcc
        rw [main_count_clearMains_self]
        omega
      · rw [main_count_clearMains_other db img.car_id c hcc]
        exact hinv c
    · exact hinv c
  by_cases hcm : cid = img.car_id ∧ img.is_main = true
  · obtain ⟨rfl, hm⟩ := hcm
    have h0 : main_count db1 img.car_id = 0 := hc_self hm
    split
    · have hle : main_count
          (db1.map (fun i => if i.id == img.id then img else i)) img.car_id ≤
          List.countP (fun i => i.id == img.id) db1 := by
        unfold main_count
        rw [List.countP_map]
        refine List.countP_mono_left (fun a ha => ?_)
        dsimp [Function.comp]
        split
        · next hid =>
          intro _
          exact hid
        · intro hpa
          exact absurd hpa (List.countP_eq_zero.mp h0 a ha)
      have hcount : List.countP (fun i => i.id == img.id) db1 ≤ 1 := by
        have e1 : List.countP (fun i => i.id == img.id) db1 =
            List.count img.id (db1.map (fun i => i.id)) := by
          rw [List.count_eq_countP, List.countP_map]
          rfl
        rw [e1, hids]
        exact List.nodup_iff_count_le_one.mp hnd img.id
      exact le_trans hle hcount
    · unfold main_count
      rw [List.countP_append]
      have h0' : List.countP (fun i => i.car_id == img.car_id && i.is_main) db1 = 0 := h0
      have h2' : List.countP (fun i => i.car_id == img.car_id && i.is_main) [img] ≤ 1 := by
        rw [List.countP_eq_length_filter]
        exact le_trans (List.length_filter_le _ _) (by simp)
      omega
  · have himg : (img.car_id == cid && img.is_main) = false := by
      cases hm : img.is_main with
      | false => simp
      | true =>
        have hne : img.car_id ≠ cid := fun hc => hcm ⟨hc.symm, hm⟩
        simpa using hne
    split
    · have hle : main_count
          (db1.map (fun i => if i.id == img.id then img else i)) cid ≤
          main_count db1 cid := by
        unfold main_count
        rw [List.countP_map]
        refine List.countP_mono_left (fun a _ => ?_)
        dsimp [Function.comp]
        split
        · intro hpa
          rw [himg] at hpa
          exact absurd hpa (by simp)
        · exact fun hpa => hpa
      exact le_trans hle (hc_le cid)
    · unfold main_count
      rw [List.countP_append]
      have h2 : List.countP (fun i => i.car_id == cid && i.is_main) [img] = 0 := by
        simp [List.countP_cons, himg]
      have := hc_le cid
      unfold main_count at this
      omega

/-- C2: starting from any image table whose pks are distinct and that has
at most one main image per car, every sequence of CarImage insert or
update operations preserves the invariant: after each operation completes
(every intermediate table is the fold of some operation sequence), at
most one CarImage of each Car has is_main set, because saving a main
image first clears the main flag on every other image of the same car. -/
theorem C2_single_main_image :
    ∀ (ops db0 : List CarImage),
      (db0.map (fun i => i.id)).Nodup →
      (∀ cid, main_count db0 cid ≤ 1) →
      ∀ cid, main_count (ops.foldl carImageSave db0) cid ≤ 1 := by
  intro ops
  induction ops with
  | nil =>
    intro db0 _ hinv cid
    exact hinv cid
  | cons op rest ih =>
    intro db0 hnd hinv cid
    exact ih (carImageSave db0 op) (carImageSave_nodup db0 op hnd)
      (fun c => carImageSave_main_count db0 op hnd hinv c) cid

/-- Witness for C2: two images of the same car saved with is_main set in
sequence leave exactly one main image. -/
theorem C2_single_main_image_witness :
    main_count (([img1, img2]).foldl carImageSave []) 1 ≤ 1 :=
  C2_single_main_image [img1, img2] [] (by simp)
    (fun cid => by simp [main_count]) 1

theorem le_foldr_max (l : List Nat) : ∀ x ∈ l, x ≤ l.foldr max 0 := by
  induction l with
  | nil =>
    intro x hx
    cases hx
  | cons a t ih =>
    intro x hx
    rcases List.mem_cons.mp hx with rfl | hx
    · exact le_max_left _ _
    · exact le_trans (ih x hx) (le_max_right _ _)

theorem next_customer_id_fresh (cs : List Customer) :
    ∀ c ∈ cs, c.id ≠ next_customer_id cs := by
  intro c hc
  have h := le_foldr_max (cs.map (fun x => x.id)) c.id (List.mem_map_of_mem _ hc)
  unfold next_customer_id
  omega

theorem nodup_ids_append_new (cs : List Customer) (newC : Customer)
    (h : (cs.map (fun x => x.id)).Nodup)
    (hfresh : ∀ c ∈ cs, c.id ≠ newC.id) :
    ((cs ++ [newC]).map (fun x => x.id)).Nodup := by
  rw [List.map_append]
  simp only [List.map_cons, List.map_nil]
  rw [List.nodup_append]
  refine ⟨h, List.nodup_singleton _, ?_⟩
  intro x hx hx1
  rcases List.mem_singleton.mp hx1 with rfl
  rcases List.mem_map.mp hx with ⟨c, hc, hcid⟩
  exact hfresh c hc hcid

theorem filter_map_comm {α : Type} (cs : List α) (p : α → Bool) (upd : α → α)
    (h : ∀ x ∈ cs, p (upd x) = p x) :
    (cs.map upd).filter p = (cs.filter p).map upd := by
  induction cs with
  | nil => rfl
  | cons a t ih =>
    have ha := h a (List.mem_cons_self a t)
    have ht := fun x hx => h x (List.mem_cons_of_mem a hx)
    cases hpa : p a with
    | false =>
      rw [hpa] at ha
      simp only [List.map_cons, List.filter_cons, ha, hpa]
      simp only [Bool.false_eq_true, if_false]
      exact ih ht
    | true =>
      rw [hpa] at ha
      simp only [List.map_cons, List.filter_cons, ha, hpa, if_true]
      rw [ih ht]

theorem ids_customer_update (cs : List Customer) (cust cust2 : Customer)
    (hid : cust2.id = cust.id) :
    ((cs.map (fun x => if x.id == cust.id then cust2 else x)).map (fun x => x.id)) =
      cs.map (fun x => x.id) := by
  rw [List.map_map]
  refine List.map_congr_left (fun a _ => ?_)
  dsimp [Function.comp]
  split
  · next h => rw [hid]; exact (eq_of_beq h).symm
  · rfl

theorem upd_preserves_email_filter (cs : List Customer) (em : String)
    (cust cust2 : Customer)
    (hnd : (cs.map (fun x => x.id)).Nodup)
    (hf : cs.filter (fun x => x.email == em) = [cust])
    (hid : cust2.id = cust.id) (hem : cust2.email = cust.email) :
    (cs.map (fun x => if x.id == cust.id then cust2 else x)).filter
        (fun x => x.email == em) = [cust2] := by
  have hcmem : cust ∈ cs := by
    have hm : cust ∈ cs.filter (fun x => x.email == em) := by
      rw [hf]
      exact List.mem_singleton_self _
    exact (List.mem_filter.mp hm).1
  have hpeq : ∀ x ∈ cs,
      ((if x.id == cust.id then cust2 else x).email == em) = (x.email == em) := by
    intro x hx
    split
    · next h =>
      have hx2 : x = cust := List.inj_on_of_nodup_map hnd hx hcmem (eq_of_beq h)
      rw [hem, hx2]
    · rfl
  rw [filter_map_comm cs _ _ hpeq, hf]
  simp

theorem goc_of_nil (cs : List Customer) (em : String) (dflt : Customer)
    (h : cs.filter (fun c => c.email == em) = []) :
    get_or_create_customer cs em dflt =
      .ok (cs ++ [{ dflt with id := next_customer_id cs, email := em }],
           { dflt with id := next_customer_id cs, email := em }) := by
  unfold get_or_create_customer
  rw [h]

theorem goc_of_one (cs : List Customer) (em : String) (dflt : Customer) (c : Customer)
    (h : cs.filter (fun x => x.email == em) = [c]) :
    get_or_create_customer cs em dflt = .ok (cs, c) := by
  unfold get_or_create_customer
  rw [h]

theorem inquiry_form_save_spec (st : LeadState) (carId : Nat) (d : InquiryFormData)
    (st' : LeadState) (cid : Nat)
    (hnd : (st.customers.map (fun x => x.id)).Nodup)
    (hlen : (st.customers.filter (fun x => x.email == strTrim d.email)).length ≤ 1)
    (h : inquiry_form_save st carId d = .ok (st', cid)) :
    (∃ c', st'.customers.filter (fun x => x.email == strTrim d.email) = [c'] ∧
        c'.id = cid) ∧
    (st'.customers.map (fun x => x.id)).Nodup ∧
    st'.test_drives = st.test_drives ∧
    (∃ row, st'.inquiries = st.inquiries ++ [row] ∧ row.customer = some cid) := by
  unfold inquiry_form_save at h
  by_cases hv : inquiry_form_is_valid d
  case neg =>
    rw [if_neg hv] at h
    exact Except.noConfusion h
  case pos =>
    rw [if_pos hv] at h
    rcases hf : st.customers.filter (fun x => x.email == strTrim d.email) with
      _ | ⟨c, rest⟩
    · rw [goc_of_nil _ _ _ hf] at h
      simp only [Except.ok.injEq, Prod.mk.injEq] at h
      obtain ⟨hS, hI⟩ := h
      subst hS
      subst hI
      refine ⟨⟨{ customer_defaults (strTrim d.first_name) (strTrim d.last_name)
          (strTrim d.phone) "" with
          id := next_customer_id st.customers, email := strTrim d.email },
          ?_, rfl⟩, ?_, rfl, ⟨_, rfl, rfl⟩⟩
      · rw [List.filter_append, hf]
        simp
      · exact nodup_ids_append_new _ _ hnd
          (fun c hc => next_customer_id_fresh st.customers c hc)
    · rcases rest with _ | ⟨c2, rest2⟩
      · rw [goc_of_one _ _ _ _ hf] at h
        simp only [Except.ok.injEq, Prod.mk.injEq] at h
        obtain ⟨hS, hI⟩ := h
        subst hS
        subst hI
        exact ⟨⟨c, hf, rfl⟩, hnd, rfl, ⟨_, rfl, rfl⟩⟩
      · rw [hf] at hlen
        simp at hlen

theorem test_drive_form_save_spec (st : LeadState) (carId : Nat)
    (d : TestDriveFormData) (st' : LeadState) (cid : Nat)
    (hnd : (st.customers.map (fun x => x.id)).Nodup)
    (hlen : (st.customers.filter (fun x => x.email == strTrim d.email)).length ≤ 1)
    (h : test_drive_form_save st carId d = .ok (st', cid)) :
    (∃ c', st'.customers.filter (fun x => x.email == strTrim d.email) = [c'] ∧
        c'.id = cid) ∧
    (st'.customers.map (fun x => x.id)).Nodup ∧
    st'.inquiries = st.inquiries ∧
    (∃ row, st'.test_drives = st.test_drives ++ [row] ∧ row.customer = some cid) := by
  unfold test_drive_form_save at h
  by_cases hv : test_drive_form_is_valid d
  case neg =>
    rw [if_neg hv] at h
    exact Except.noConfusion h
  case pos =>
    rw [if_pos hv] at h
    have hdl : strTrim d.driving_license_number ≠ "" := by
      have hv' := hv
      simp only [test_drive_form_is_valid, Bool.and_eq_true] at hv'
      have h5 := hv'.1.1.2
      simpa [required_filled] using h5
    rcases hf : st.customers.filter (fun x => x.email == strTrim d.email) with
      _ | ⟨c, rest⟩
    · rw [goc_of_nil _ _ _ hf] at h
      have hnf : (strTrim d.driving_license_number == "") = false :=
        beq_eq_false_iff_ne.mpr hdl
      simp only [customer_defaults] at h
      rw [hnf] at h
      simp only [Bool.false_eq_true, if_false, Except.ok.injEq, Prod.mk.injEq] at h
      obtain ⟨hS, hI⟩ := h
      subst hS
      subst hI
      refine ⟨⟨{ customer_defaults (strTrim d.first_name) (strTrim d.last_name)
          (strTrim d.phone) (strTrim d.driving_license_number) with
          id := next_customer_id st.customers, email := strTrim d.email },
          ?_, rfl⟩, ?_, rfl, ⟨_, rfl, rfl⟩⟩
      · rw [List.filter_append, hf]
        simp [customer_defaults]
      · exact nodup_ids_append_new _ _ hnd
          (fun c hc => next_customer_id_fresh st.customers c hc)
    · rcases rest with _ | ⟨c2, rest2⟩
      · rw [goc_of_one _ _ _ _ hf] at h
        rcases hdl2 : (c.driving_license_number == "") with _ | _
        · simp only [hdl2, Bool.false_eq_true, if_false, Except.ok.injEq,
            Prod.mk.injEq] at h
          obtain ⟨hS, hI⟩ := h
          subst hS
          subst hI
          exact ⟨⟨c, hf, rfl⟩, hnd, rfl, ⟨_, rfl, rfl⟩⟩
        · simp only [hdl2, if_true, Except.ok.injEq, Prod.mk.injEq] at h
          obtain ⟨hS, hI⟩ := h
          subst hS
          subst hI
          refine ⟨⟨{ c with driving_license_number := strTrim d.driving_license_number },
              ?_, rfl⟩, ?_, rfl, ⟨_, rfl, rfl⟩⟩
          · exact upd_preserves_email_filter st.customers (strTrim d.email) c
              { c with driving_license_number := strTrim d.driving_license_number }
              hnd hf rfl rfl
          · show ((st.customers.map (fun x =>
                if x.id == c.id then
                  { c with driving_license_number := strTrim d.driving_license_number }
                else x)).map (fun x => x.id)).Nodup
            rw [ids_customer_update st.customers c
              { c with driving_license_number := strTrim d.driving_license_number } rfl]
            exact hnd
      · rw [hf] at hlen
        simp at hlen

theorem submit_lead_spec (st : LeadState) (s : LeadSubmission) (st' : LeadState)
    (cid : Nat)
    (hnd : (st.customers.map (fun x => x.id)).Nodup)
    (hlen : (st.customers.filter (fun x => x.email == lead_email s)).length ≤ 1)
    (h : submit_lead st s = .ok (st', cid)) :
    (∃ c', st'.customers.filter (fun x => x.email == lead_email s) = [c'] ∧
        c'.id = cid) ∧
    (st'.customers.map (fun x => x.id)).Nodup ∧
    st'.inquiries.length + st'.test_drives.length =
      st.inquiries.length + st.test_drives.length + 1 ∧
    new_leads_reference st st' cid := by
  cases s with
  | inquiry carId d =>
    obtain ⟨he, hn, htd, ⟨row, hrow, hcust⟩⟩ :=
      inquiry_form_save_spec st carId d st' cid hnd hlen h
    refine ⟨he, hn, ?_, ?_, ?_⟩
    · rw [htd, hrow]
      simp only [List.length_append, List.length_cons, List.length_nil]
      omega
    · intro i hi
      rw [hrow] at hi
      rcases List.mem_append.mp hi with hi | hi
      · exact Or.inl hi
      · rcases List.mem_singleton.mp hi with rfl
        exact Or.inr hcust
    · intro t ht
      rw [htd] at ht
      exact Or.inl ht
  | testDrive carId d =>
    obtain ⟨he, hn, hin, ⟨row, hrow, hcust⟩⟩ :=
      test_drive_form_save_spec st carId d st' cid hnd hlen h
    refine ⟨he, hn, ?_, ?_, ?_⟩
    · rw [hin, hrow]
      simp only [List.length_append, List.length_cons, List.length_nil]
      omega
    · intro i hi
      rw [hin] at hi
      exact Or.inl hi
    · intro t ht
      rw [hrow] at ht
      rcases List.mem_append.mp ht with ht | ht
      · exact Or.inl ht
      · rcases List.mem_singleton.mp ht with rfl
        exact Or.inr hcust

theorem submit_lead_found (st : LeadState) (s : LeadSubmission) (st' : LeadState)
    (cid : Nat) (c : Customer)
    (hnd : (st.customers.map (fun x => x.id)).Nodup)
    (hf : st.customers.filter (fun x => x.email == lead_email s) = [c])
    (h : submit_lead st s = .ok (st', cid)) :
    cid = c.id ∧
    ((lead_is_test_drive s = false ∨ c.driving_license_number ≠ "") →
        st'.customers = st.customers) ∧
    (lead_is_test_drive s = true → c.driving_license_number = "" →
        st'.customers = st.customers.map (fun x =>
          if x.id == c.id then
            { c with driving_license_number := lead_license s } else x)) := by
  cases s with
  | inquiry carId d =>
    simp only [submit_lead] at h
    unfold inquiry_form_save at h
    by_cases hv : inquiry_form_is_valid d
    case neg =>
      rw [if_neg hv] at h
      exact Except.noConfusion h
    case pos =>
      rw [if_pos hv] at h
      have hf' : st.customers.filter (fun x => x.email == strTrim d.email) = [c] := hf
      rw [goc_of_one _ _ _ _ hf'] at h
      simp only [Except.ok.injEq, Prod.mk.injEq] at h
      obtain ⟨hS, hI⟩ := h
      subst hS
      subst hI
      refine ⟨rfl, fun _ => rfl, fun hts _ => ?_⟩
      exact absurd hts (by simp [lead_is_test_drive])
  | testDrive carId d =>
    simp only [submit_lead] at h
    unfold test_drive_form_save at h
    by_cases hv : test_drive_form_is_valid d
    case neg =>
      rw [if_neg hv] at h
      exact Except.noConfusion h
    case pos =>
      rw [if_pos hv] at h
      have hf' : st.customers.filter (fun x => x.email == strTrim d.email) = [c] := hf
      rw [goc_of_one _ _ _ _ hf'] at h
      rcases hdl2 : (c.driving_license_number == "") with _ | _
      · simp only [hdl2, Bool.false_eq_true, if_false, Except.ok.injEq,
          Prod.mk.injEq] at h
        obtain ⟨hS, hI⟩ := h
        subst hS
        subst hI
        refine ⟨rfl, fun _ => rfl, fun _ hdl => ?_⟩
        exact absurd hdl (beq_eq_false_iff_ne.mp hdl2)
      · simp only [hdl2, if_true, Except.ok.injEq, Prod.mk.injEq] at h
        obtain ⟨hS, hI⟩ := h
        subst hS
        subst hI
        refine ⟨rfl, ?_, fun _ _ => rfl⟩
        intro hca
        rcases hca with hts | hdl
        · exact absurd hts (by simp [lead_is_test_drive])
        · exact absurd (eq_of_beq hdl2) hdl

/-- C7: two valid Lead-Capture submissions (Inquiry or TestDrive, in any
order) carrying the same email, run sequentially against a store with
distinct Customer pks and at most one Customer holding that email, leave
exactly one Customer row with that email, resolve both to the same
customer pk, and write exactly two new lead rows, each referencing that
customer. -/
theorem C7_same_email_single_customer :
    ∀ (st : LeadState) (s1 s2 : LeadSubmission) (em : String)
      (st1 st2 : LeadState) (c1 c2 : Nat),
      (st.customers.map (fun x => x.id)).Nodup →
      lead_email s1 = em → lead_email s2 = em →
      (st.customers.filter (fun c => c.email == em)).length ≤ 1 →
      submit_lead st s1 = .ok (st1, c1) →
      submit_lead st1 s2 = .ok (st2, c2) →
      c1 = c2 ∧
      (st2.customers.filter (fun c => c.email == em)).length = 1 ∧
      st2.inquiries.length + st2.test_drives.length =
        st.inquiries.length + st.test_drives.length + 2 ∧
      new_leads_reference st st2 c1 := by
  intro st s1 s2 em st1 st2 c1 c2 hnd he1 he2 hlen h1 h2
  subst he1
  obtain ⟨⟨cA, hfA, hidA⟩, hnd1, hcnt1, href1⟩ :=
    submit_lead_spec st s1 st1 c1 hnd hlen h1
  have hfA2 : st1.customers.filter (fun c => c.email == lead_email s2) = [cA] := by
    rw [he2]
    exact hfA
  obtain ⟨hc2, _, _⟩ := submit_lead_found st1 s2 st2 c2 cA hnd1 hfA2 h2
  have hc12 : c1 = c2 := by rw [hc2, hidA]
  obtain ⟨⟨cB, hfB, hidB⟩, hnd2, hcnt2, href2⟩ :=
    submit_lead_spec st1 s2 st2 c2 hnd1 (by rw [hfA2]; simp) h2
  refine ⟨hc12, ?_, by omega, ?_, ?_⟩
  · have hgoal : st2.customers.filter (fun c => c.email == lead_email s2) = [cB] := hfB
    rw [← he2, hgoal]
    rfl
  · intro i hi
    rcases href2.1 i hi with hin | hcust
    · rcases href1.1 i hin with h' | hcust
      · exact Or.inl h'
      · exact Or.inr hcust
    · rw [hc12]
      exact Or.inr hcust
  · intro t ht
    rcases href2.2 t ht with hin | hcust
    · rcases href1.2 t hin with h' | hcust
      · exact Or.inl h'
      · exact Or.inr hcust
    · rw [hc12]
      exact Or.inr hcust

/-- Witness for C7: a test drive then an inquiry with the same email
resolve to one customer and one Customer row. -/
theorem C7_same_email_single_customer_witness :
    exLead1.2 = exLead2.2 ∧
    (exLead2.1.customers.filter (fun c => c.email == "jane@x.com")).length = 1 := by
  have h := C7_same_email_single_customer stEmpty (.testDrive 1 tdGood)
    (.inquiry 2 inqGood) "jane@x.com" exLead1.1 exLead2.1 exLead1.2 exLead2.2
    (by decide) (by decide) (by decide) (by decide) (by decide) (by decide)
  exact ⟨h.1, h.2.1⟩

/-- C10: a valid submission whose email matches exactly one existing
Customer resolves to that Customer and leaves its stored first_name,
last_name and phone unchanged: the customer table is either untouched
(inquiry, or test drive with a license already on file) or changed only
by writing the submitted driving license into that one row, and only when
it was previously blank and the submission is a test drive. -/
theorem C10_existing_customer_frame :
    ∀ (st : LeadState) (s : LeadSubmission) (st' : LeadState) (cid : Nat)
      (c : Customer),
      (st.customers.map (fun x => x.id)).Nodup →
      st.customers.filter (fun x => x.email == lead_email s) = [c] →
      submit_lead st s = .ok (st', cid) →
      cid = c.id ∧
      ((lead_is_test_drive s = false ∨ c.driving_license_number ≠ "") →
          st'.customers = st.customers) ∧
      (lead_is_test_drive s = true → c.driving_license_number = "" →
          st'.customers = st.customers.map (fun x =>
            if x.id == c.id then
              { c with driving_license_number := lead_license s } else x)) ∧
      (∃ c2, st'.customers.filter (fun x => x.email == lead_email s) = [c2] ∧
          c2.id = c.id ∧ c2.first_name = c.first_name ∧
          c2.last_name = c.last_name ∧ c2.phone = c.phone ∧
          c2.driving_license_number =
            (if lead_is_test_drive s = true ∧ c.driving_license_number = ""
             then lead_license s else c.driving_license_number)) := by
  intro st s st' cid c hnd hf h
  obtain ⟨h1, h2, h3⟩ := submit_lead_found st s st' cid c hnd hf h
  refine ⟨h1, h2, h3, ?_⟩
  by_cases hc : lead_is_test_drive s = true ∧ c.driving_license_number = ""
  · obtain ⟨hts, hdl⟩ := hc
    rw [h3 hts hdl]
    rw [upd_preserves_email_filter st.customers (lead_email s) c
      { c with driving_license_number := lead_license s } hnd hf rfl rfl]
    exact ⟨{ c with driving_license_number := lead_license s },
      rfl, rfl, rfl, rfl, rfl, by rw [if_pos ⟨hts, hdl⟩]⟩
  · have hcust : st'.customers = st.customers := by
      apply h2
      rcases Bool.eq_false_or_eq_true (lead_is_test_drive s) with htrue | hfalse
      · exact Or.inr (fun hdl => hc ⟨htrue, hdl⟩)
      · exact Or.inl hfalse
    rw [hcust, hf]
    exact ⟨c, rfl, rfl, rfl, rfl, rfl, by rw [if_neg hc]⟩

/-- Witness for C10: a test drive matching the stored customer with a
blank license resolves to that customer. -/
theorem C10_existing_customer_frame_witness :
    exLead3.2 = custJane.id :=
  (C10_existing_customer_frame stJane (.testDrive 1 tdGood) exLead3.1 exLead3.2
    custJane (by decide) (by decide) (by decide)).1

theorem filterIntParam_sub {p : Option String} {key : Car → Int}
    {cars out : List Car} (h : filterIntParam p key cars = .ok out) :
    ∀ c ∈ out, c ∈ cars := by
  unfold filterIntParam at h
  cases p with
  | none =>
    simp only [Except.ok.injEq] at h
    subst h
    exact fun c hc => hc
  | some s =>
    dsimp only at h
    by_cases hs : s = ""
    · rw [if_pos hs] at h
      simp only [Except.ok.injEq] at h
      subst h
      exact fun c hc => hc
    · rw [if_neg hs] at h
      cases hv : pyInt? s with
      | none =>
        rw [hv] at h
        exact Except.noConfusion h
      | some v =>
        rw [hv] at h
        simp only [Except.ok.injEq] at h
        subst h
        exact fun c hc => (List.mem_filter.mp hc).1

theorem filterIntParam_pred {p : Option String} {key : Car → Int}
    {cars out : List Car} (h : filterIntParam p key cars = .ok out) :
    ∀ s, p = some s → s ≠ "" → ∀ c ∈ out, ∃ v, pyInt? s = some v ∧ key c = v := by
  intro s hp hs c hc
  subst hp
  unfold filterIntParam at h
  dsimp only at h
  rw [if_neg hs] at h
  cases hv : pyInt? s with
  | none =>
    rw [hv] at h
    exact Except.noConfusion h
  | some v =>
    rw [hv] at h
    simp only [Except.ok.injEq] at h
    subst h
    exact ⟨v, rfl, eq_of_beq (List.mem_filter.mp hc).2⟩

theorem filterPriceParam_sub {p : Option String} {keep : Car → DecimalLit → Bool}
    {cars out : List Car} (h : filterPriceParam p keep cars = .ok out) :
    ∀ c ∈ out, c ∈ cars := by
  unfold filterPriceParam at h
  cases p with
  | none =>
    simp only [Except.ok.injEq] at h
    subst h
    exact fun c hc => hc
  | some s =>
    dsimp only at h
    by_cases hs : s = ""
    · rw [if_pos hs] at h
      simp only [Except.ok.injEq] at h
      subst h
      exact fun c hc => hc
    · rw [if_neg hs] at h
      cases hv : parseDecimal? s with
      | none =>
        rw [hv] at h
        exact Except.noConfusion h
      | some v =>
        rw [hv] at h
        simp only [Except.ok.injEq] at h
        subst h
        exact fun c hc => (List.mem_filter.mp hc).1

theorem filterPriceParam_pred {p : Option String} {keep : Car → DecimalLit → Bool}
    {cars out : List Car} (h : filterPriceParam p keep cars = .ok out) :
    ∀ s, p = some s → s ≠ "" → ∀ c ∈ out,
      ∃ v, parseDecimal? s = some v ∧ keep c v = true := by
  intro s hp hs c hc
  subst hp
  unfold filterPriceParam at h
  dsimp only at h
  rw [if_neg hs] at h
  cases hv : parseDecimal? s with
  | none =>
    rw [hv] at h
    exact Except.noConfusion h
  | some v =>
    rw [hv] at h
    simp only [Except.ok.injEq] at h
    subst h
    exact ⟨v, rfl, (List.mem_filter.mp hc).2⟩

theorem filterExactParam_sub (p : Option String) (key : Car → String)
    (cars : List Car) : ∀ c ∈ filterExactParam p key cars, c ∈ cars := by
  intro c hc
  unfold filterExactParam at hc
  cases p with
  | none => exact hc
  | some s =>
    dsimp only at hc
    by_cases hs : s = ""
    · rw [if_pos hs] at hc
      exact hc
    · rw [if_neg hs] at hc
      exact (List.mem_filter.mp hc).1

theorem filterExactParam_pred (p : Option String) (key : Car → String)
    (cars : List Car) :
    ∀ s, p = some s → s ≠ "" → ∀ c ∈ filterExactParam p key cars, key c = s := by
  intro s hp hs c hc
  subst hp
  unfold filterExactParam at hc
  dsimp only at hc
  rw [if_neg hs] at hc
  exact eq_of_beq (List.mem_filter.mp hc).2

theorem filterColor_sub (p : Option String) (cars : List Car) :
    ∀ c ∈ filterColor p cars, c ∈ cars := by
  intro c hc
  unfold filterColor at hc
  cases p with
  | none => exact hc
  | some s =>
    dsimp only at hc
    by_cases hs : s = ""
    · rw [if_pos hs] at hc
      exact hc
    · rw [if_neg hs] at hc
      exact (List.mem_filter.mp hc).1

theorem filterColor_pred (p : Option String) (cars : List Car) :
    ∀ s, p = some s → s ≠ "" → ∀ c ∈ filterColor p cars,
      icontains s c.color = true := by
  intro s hp hs c hc
  subst hp
  unfold filterColor at hc
  dsimp only at hc
  rw [if_neg hs] at hc
  exact (List.mem_filter.mp hc).2

theorem filterSearch_sub (db : DB) (p : Option String) (cars : List Car) :
    ∀ c ∈ filterSearch db p cars, c ∈ cars := by
  intro c hc
  unfold filterSearch at hc
  cases p with
  | none => exact hc
  | some s =>
    dsimp only at hc
    by_cases hs : s = ""
    · rw [if_pos hs] at hc
      exact hc
    · rw [if_neg hs] at hc
      exact (List.mem_filter.mp hc).1

theorem filterSearch_pred (db : DB) (p : Option String) (cars : List Car) :
    ∀ s, p = some s → s ≠ "" → ∀ c ∈ filterSearch db p cars,
      searchMatches db s c = true := by
  intro s hp hs c hc
  subst hp
  unfold filterSearch at hc
  dsimp only at hc
  rw [if_neg hs] at hc
  exact (List.mem_filter.mp hc).2

theorem filterMileage_sub (p : Option String) (cars : List Car) :
    ∀ c ∈ filterMileage p cars, c ∈ cars := by
  intro c hc
  unfold filterMileage at hc
  cases p with
  | none => exact hc
  | some s =>
    dsimp only at hc
    by_cases hs : s = ""
    · rw [if_pos hs] at hc
      exact hc
    · rw [if_neg hs] at hc
      cases hb : mileage_map s with
      | none =>
        rw [hb] at hc
        exact hc
      | some bound =>
        rw [hb] at hc
        exact (List.mem_filter.mp hc).1

theorem filterMileage_pred (p : Option String) (cars : List Car) :
    ∀ s b, p = some s → mileage_map s = some b →
      ∀ c ∈ filterMileage p cars, c.mileage ≤ b := by
  intro s b hp hb c hc
  subst hp
  unfold filterMileage at hc
  dsimp only at hc
  have hs : s ≠ "" := by
    intro hempty
    rw [hempty] at hb
    simp [mileage_map] at hb
  rw [if_neg hs, hb] at hc
  simpa using (List.mem_filter.mp hc).2

theorem filterAvailability_sub (p : Option String) (cars : List Car) :
    ∀ c ∈ filterAvailability p cars, c ∈ cars := by
  intro c hc
  unfold filterAvailability at hc
  by_cases h1 : p.getD "all" = "sale"
  · rw [if_pos h1] at hc
    exact (List.mem_filter.mp hc).1
  · rw [if_neg h1] at hc
    by_cases h2 : p.getD "all" = "rent"
    · rw [if_pos h2] at hc
      exact (List.mem_filter.mp hc).1
    · rw [if_neg h2] at hc
      exact hc

theorem filterAvailability_sale (cars : List Car) :
    ∀ c ∈ filterAvailability (some "sale") cars, c.is_for_sale = true := by
  intro c hc
  unfold filterAvailability at hc
  have h1 : ((some "sale" : Option String).getD "all") = "sale" := rfl
  rw [h1, if_pos rfl] at hc
  simpa using (List.mem_filter.mp hc).2

theorem filterAvailability_rent (cars : List Car) :
    ∀ c ∈ filterAvailability (some "rent") cars, c.is_for_rent = true := by
  intro c hc
  unfold filterAvailability at hc
  have h1 : ((some "rent" : Option String).getD "all") = "rent" := rfl
  rw [h1, if_neg (by decide), if_pos rfl] at hc
  simpa using (List.mem_filter.mp hc).2

/-- C1: every Car in a successful Catalog Filter Engine page has
status available and satisfies every present filter predicate — exact
match on brand, model and year (through the integer conversion the query
layer applies), exact match on the enum columns, case-insensitive
substring match on color, the price bounds, the mileage bucket bound when
the bucket is a key of the map, the availability mode, and the four-field
free-text search; absent or empty parameters impose no constraint. -/
theorem C1_filters_sound :
    ∀ (db : DB) (req : CarListRequest) (res : CarListResult),
      car_list_view db req = .ok res →
      ∀ c ∈ res.page_cars,
        c.status = "available" ∧
        (∀ s, req.brand = some s → s ≠ "" →
            ∃ v, pyInt? s = some v ∧ (c.brand_id : Int) = v) ∧
        (∀ s, req.model = some s → s ≠ "" →
            ∃ v, pyInt? s = some v ∧ (c.car_model_id : Int) = v) ∧
        (∀ s, req.year = some s → s ≠ "" →
            ∃ v, pyInt? s = some v ∧ (c.year : Int) = v) ∧
        (∀ s, req.car_type = some s → s ≠ "" → c.car_type = s) ∧
        (∀ s, req.condition = some s → s ≠ "" → c.condition = s) ∧
        (∀ s, req.transmission = some s → s ≠ "" → c.transmission = s) ∧
        (∀ s, req.fuel_type = some s → s ≠ "" → c.fuel_type = s) ∧
        (∀ s, req.color = some s → s ≠ "" → icontains s c.color = true) ∧
        (∀ s, req.min_price = some s → s ≠ "" →
            ∃ v, parseDecimal? s = some v ∧ litLeCents v c.selling_price = true) ∧
        (∀ s, req.max_price = some s → s ≠ "" →
            ∃ v, parseDecimal? s = some v ∧ centsLeLit c.selling_price v = true) ∧
        (∀ s b, req.mileage = some s → mileage_map s = some b → c.mileage ≤ b) ∧
        (req.availability = some "sale" → c.is_for_sale = true) ∧
        (req.availability = some "rent" → c.is_for_rent = true) ∧
        (∀ s, req.search = some s → s ≠ "" → searchMatches db s c = true) := by
  intro db req res hres c hc
  unfold car_list_view at hres
  cases hfc : filtered_cars db req with
  | error e =>
    rw [hfc] at hres
    exact Except.noConfusion hres
  | ok fc =>
    rw [hfc] at hres
    simp only [Except.ok.injEq] at hres
    subst hres
    dsimp only at hc
    have hcs : c ∈ sortCars (effective_sort req) fc :=
      List.mem_of_mem_drop (List.mem_of_mem_take hc)
    have hcf : c ∈ fc := (List.perm_insertionSort _ fc).mem_iff.mp hcs
    clear hc hcs
    unfold filtered_cars at hfc
    dsimp only at hfc
    cases hb : filterIntParam req.brand (fun c => (c.brand_id : Int))
        (db.cars.filter (fun c => c.status == "available")) with
    | error e =>
      rw [hb] at hfc
      exact Except.noConfusion hfc
    | ok cars1 =>
    rw [hb] at hfc
    dsimp only at hfc
    cases hm : filterIntParam req.model (fun c => (c.car_model_id : Int)) cars1 with
    | error e =>
      rw [hm] at hfc
      exact Except.noConfusion hfc
    | ok cars2 =>
    rw [hm] at hfc
    dsimp only at hfc
    cases hy : filterIntParam req.year (fun c => (c.year : Int)) cars2 with
    | error e =>
      rw [hy] at hfc
      exact Except.noConfusion hfc
    | ok cars3 =>
    rw [hy] at hfc
    dsimp only at hfc
    cases hmin : filterPriceParam req.min_price
        (fun c v => litLeCents v c.selling_price)
        (filterColor req.color
          (filterExactParam req.fuel_type (fun c => c.fuel_type)
            (filterExactParam req.transmission (fun c => c.transmission)
              (filterExactParam req.condition (fun c => c.condition)
                (filterExactParam req.car_type (fun c => c.car_type) cars3))))) with
    | error e =>
      rw [hmin] at hfc
      exact Except.noConfusion hfc
    | ok cars9 =>
    rw [hmin] at hfc
    dsimp only at hfc
    cases hmax : filterPriceParam req.max_price
        (fun c v => centsLeLit c.selling_price v) cars9 with
    | error e =>
      rw [hmax] at hfc
      exact Except.noConfusion hfc
    | ok cars10 =>
    rw [hmax] at hfc
    dsimp only at hfc
    simp only [Except.ok.injEq] at hfc
    subst hfc
    have h12 : c ∈ filterAvailability req.availability (filterMileage req.mileage cars10) :=
      filterSearch_sub db req.search _ c hcf
    have h11 : c ∈ filterMileage req.mileage cars10 :=
      filterAvailability_sub req.availability _ c h12
    have h10 : c ∈ cars10 := filterMileage_sub req.mileage _ c h11
    have h9 : c ∈ cars9 := filterPriceParam_sub hmax c h10
    have h8 : c ∈ filterColor req.color
        (filterExactParam req.fuel_type (fun c => c.fuel_type)
          (filterExactParam req.transmission (fun c => c.transmission)
            (filterExactParam req.condition (fun c => c.condition)
              (filterExactParam req.car_type (fun c => c.car_type) cars3)))) :=
      filterPriceParam_sub hmin c h9
    have h7 : c ∈ filterExactParam req.fuel_type (fun c => c.fuel_type)
        (filterExactParam req.transmission (fun c => c.transmission)
          (filterExactParam req.condition (fun c => c.condition)
            (filterExactParam req.car_type (fun c => c.car_type) cars3))) :=
      filterColor_sub req.color _ c h8
    have h6 : c ∈ filterExactParam req.transmission (fun c => c.transmission)
        (filterExactParam req.condition (fun c => c.condition)
          (filterExactParam req.car_type (fun c => c.car_type) cars3)) :=
      filterExactParam_sub req.fuel_type _ _ c h7
    have h5 : c ∈ filterExactParam req.condition (fun c => c.condition)
        (filterExactParam req.car_type (fun c => c.car_type) cars3) :=
      filterExactParam_sub req.transmission _ _ c h6
    have h4 : c ∈ filterExactParam req.car_type (fun c => c.car_type) cars3 :=
      filterExactParam_sub req.condition _ _ c h5
    have h3 : c ∈ cars3 := filterExactParam_sub req.car_type _ _ c h4
    have h2 : c ∈ cars2 := filterIntParam_sub hy c h3
    have h1 : c ∈ cars1 := filterIntParam_sub hm c h2
    have h0 : c ∈ db.cars.filter (fun c => c.status == "available") :=
      filterIntParam_sub hb c h1
    refine ⟨eq_of_beq (List.mem_filter.mp h0).2,
      fun s hp hs => filterIntParam_pred hb s hp hs c h1,
      fun s hp hs => filterIntParam_pred hm s hp hs c h2,
      fun s hp hs => filterIntParam_pred hy s hp hs c h3,
      fun s hp hs => filterExactParam_pred req.car_type _ _ s hp hs c h4,
      fun s hp hs => filterExactParam_pred req.condition _ _ s hp hs c h5,
      fun s hp hs => filterExactParam_pred req.transmission _ _ s hp hs c h6,
      fun s hp hs => filterExactParam_pred req.fuel_type _ _ s hp hs c h7,
      fun s hp hs => filterColor_pred req.color _ s hp hs c h8,
      fun s hp hs => filterPriceParam_pred hmin s hp hs c h9,
      fun s hp hs => filterPriceParam_pred hmax s hp hs c h10,
      fun s b hp hb2 => filterMileage_pred req.mileage _ s b hp hb2 c h11,
      fun hp => ?_, fun hp => ?_,
      fun s hp hs => filterSearch_pred db req.search _ s hp hs c hcf⟩
    · rw [hp] at h12
      exact filterAvailability_sale _ c h12
    · rw [hp] at h12
      exact filterAvailability_rent _ c h12

/-- Witness for C1 at the concrete database and fully-filtered request. -/
theorem C1_filters_sound_witness :
    carA.status = "available" ∧ carA.is_for_sale = true := by
  have h := C1_filters_sound exDB reqFull exResFull (by decide) carA (by decide)
  exact ⟨h.1, h.2.2.2.2.2.2.2.2.2.2.2.2.1 (by decide)⟩

/-- C5 counterexample: with one available 2020 car and one sold 1999 car,
the year facet contains 1999, a year no available car has, so the facet
data is not computed over the Cars with status available as the claim
states. -/
theorem C5_counterexample :
    car_list_view exDB reqEmpty = .ok exResEmpty ∧
    1999 ∈ exResEmpty.years_facet ∧
    (exDB.cars.filter (fun c => c.status == "available")).all
      (fun c => c.year != 1999) = true := by
  exact ⟨by decide, by decide, by decide⟩

/-- C5 amended: the facet data is computed over the whole Car table with
no status restriction — distinct years sorted descending and distinct
colors sorted ascending over all Car rows, all active brands, all
categories, and the global min and max selling price over all Car rows —
and it is independent of every request parameter. -/
theorem C5_facets_whole_table :
    ∀ (db : DB) (req : CarListRequest) (res : CarListResult),
      car_list_view db req = .ok res →
      res.years_facet =
        List.insertionSort (fun a b : Nat => b ≤ a)
          ((db.cars.map (fun c => c.year)).dedup) ∧
      res.colors_facet =
        List.insertionSort (fun a b => strLe a b = true)
          ((db.cars.map (fun c => c.color)).dedup) ∧
      res.brands_facet =
        List.insertionSort (fun a b => strLe a.name b.name = true)
          (db.brands.filter (fun b => b.is_active)) ∧
      res.categories_facet =
        List.insertionSort (fun a b => strLe a.name b.name = true) db.categories ∧
      res.min_price_facet = (db.cars.map (fun c => c.selling_price)).min? ∧
      res.max_price_facet = (db.cars.map (fun c => c.selling_price)).max? ∧
      (∀ (req2 : CarListRequest) (res2 : CarListResult),
        car_list_view db req2 = .ok res2 →
        res2.years_facet = res.years_facet ∧
        res2.colors_facet = res.colors_facet ∧
        res2.brands_facet = res.brands_facet ∧
        res2.models_facet = res.models_facet ∧
        res2.categories_facet = res.categories_facet ∧
        res2.min_price_facet = res.min_price_facet ∧
        res2.max_price_facet = res.max_price_facet) := by
  intro db req res h
  unfold car_list_view at h
  cases hfc : filtered_cars db req with
  | error e =>
    rw [hfc] at h
    exact Except.noConfusion h
  | ok fc =>
    rw [hfc] at h
    simp only [Except.ok.injEq] at h
    subst h
    refine ⟨rfl, rfl, rfl, rfl, rfl, rfl, ?_⟩
    intro req2 res2 h2
    unfold car_list_view at h2
    cases hfc2 : filtered_cars db req2 with
    | error e =>
      rw [hfc2] at h2
      exact Except.noConfusion h2
    | ok fc2 =>
      rw [hfc2] at h2
      simp only [Except.ok.injEq] at h2
      subst h2
      exact ⟨rfl, rfl, rfl, rfl, rfl, rfl, rfl⟩

/-- Witness for C5 amended at the concrete database and two requests. -/
theorem C5_facets_whole_table_witness :
    exResFull.years_facet =
      List.insertionSort (fun a b : Nat => b ≤ a)
        ((exDB.cars.map (fun c => c.year)).dedup) ∧
    exResEmpty.years_facet = exResFull.years_facet := by
  have h := C5_facets_whole_table exDB reqFull exResFull (by decide)
  exact ⟨h.1, (h.2.2.2.2.2.2 reqEmpty exResEmpty (by decide)).1⟩

theorem filterIntParam_malformed {s : String} (key : Car → Int) (cars : List Car)
    (hs : s ≠ "") (hp : pyInt? s = none) :
    filterIntParam (some s) key cars =
      .error "ValueError: invalid literal for int" := by
  unfold filterIntParam
  dsimp only
  rw [if_neg hs, hp]

theorem filterPriceParam_malformed {s : String} (keep : Car → DecimalLit → Bool)
    (cars : List Car) (hs : s ≠ "") (hp : parseDecimal? s = none) :
    filterPriceParam (some s) keep cars =
      .error "InvalidOperation: invalid decimal literal" := by
  unfold filterPriceParam
  dsimp only
  rw [if_neg hs, hp]

theorem filtered_cars_year_malformed (db : DB) (req : CarListRequest) (s : String)
    (hy : req.year = some s) (hs : s ≠ "") (hp : pyInt? s = none) :
    ∃ e, filtered_cars db req = .error e := by
  unfold filtered_cars
  dsimp only
  cases hb : filterIntParam req.brand (fun c => (c.brand_id : Int))
      (db.cars.filter (fun c => c.status == "available")) with
  | error e => exact ⟨e, rfl⟩
  | ok cars1 =>
  dsimp only
  cases hm : filterIntParam req.model (fun c => (c.car_model_id : Int)) cars1 with
  | error e => exact ⟨e, rfl⟩
  | ok cars2 =>
  dsimp only
  rw [hy, filterIntParam_malformed _ _ hs hp]
  exact ⟨_, rfl⟩

theorem filtered_cars_min_price_malformed (db : DB) (req : CarListRequest)
    (s : String) (hmp : req.min_price = some s) (hs : s ≠ "")
    (hp : parseDecimal? s = none) :
    ∃ e, filtered_cars db req = .error e := by
  unfold filtered_cars
  dsimp only
  cases hb : filterIntParam req.brand (fun c => (c.brand_id : Int))
      (db.cars.filter (fun c => c.status == "available")) with
  | error e => exact ⟨e, rfl⟩
  | ok cars1 =>
  dsimp only
  cases hm : filterIntParam req.model (fun c => (c.car_model_id : Int)) cars1 with
  | error e => exact ⟨e, rfl⟩
  | ok cars2 =>
  dsimp only
  cases hy : filterIntParam req.year (fun c => (c.year : Int)) cars2 with
  | error e => exact ⟨e, rfl⟩
  | ok cars3 =>
  dsimp only
  rw [hmp, filterPriceParam_malformed _ _ hs hp]
  exact ⟨_, rfl⟩

theorem filtered_cars_max_price_malformed (db : DB) (req : CarListRequest)
    (s : String) (hmp : req.max_price = some s) (hs : s ≠ "")
    (hp : parseDecimal? s = none) :
    ∃ e, filtered_cars db req = .error e := by
  unfold filtered_cars
  dsimp only
  cases hb : filterIntParam req.brand (fun c => (c.brand_id : Int))
      (db.cars.filter (fun c => c.status == "available")) with
  | error e => exact ⟨e, rfl⟩
  | ok cars1 =>
  dsimp only
  cases hm : filterIntParam req.model (fun c => (c.car_model_id : Int)) cars1 with
  | error e => exact ⟨e, rfl⟩
  | ok cars2 =>
  dsimp only
  cases hy : filterIntParam req.year (fun c => (c.year : Int)) cars2 with
  | error e => exact ⟨e, rfl⟩
  | ok cars3 =>
  dsimp only
  cases hmin : filterPriceParam req.min_price
      (fun c v => litLeCents v c.selling_price)
      (filterColor req.color
        (filterExactParam req.fuel_type (fun c => c.fuel_type)
          (filterExactParam req.transmission (fun c => c.transmission)
            (filterExactParam req.condition (fun c => c.condition)
              (filterExactParam req.car_type (fun c => c.car_type) cars3))))) with
  | error e => exact ⟨e, rfl⟩
  | ok cars9 =>
  dsimp only
  rw [hmp, filterPriceParam_malformed _ _ hs hp]
  exact ⟨_, rfl⟩

theorem car_list_view_error_of_filtered (db : DB) (req : CarListRequest)
    (h : ∃ e, filtered_cars db req = .error e) :
    ∃ e, car_list_view db req = .error e := by
  obtain ⟨e, he⟩ := h
  refine ⟨e, ?_⟩
  unfold car_list_view
  rw [he]

theorem get_page_number_malformed (s : String) (hp : pyInt? s = none) (np : Nat) :
    get_page_number (some s) np = get_page_number none np := by
  unfold get_page_number
  dsimp only
  rw [hp]

/-- C3 counterexample: the request differing from the empty one only by
min_price "abc" is not treated as if min_price were absent: it fails with
a hard error while the empty request succeeds. -/
theorem C3_counterexample :
    car_list_view exDB reqBadPrice =
      .error "InvalidOperation: invalid decimal literal" ∧
    (car_list_view exDB reqEmpty).isOk = true := by
  exact ⟨by decide, by decide⟩

/-- C3 amended: only the pagination parameters are forgiving — a
malformed page value is treated exactly as an absent one and a malformed
per_page value falls back to 9, never failing — while a malformed
non-empty min_price, max_price or year filter value is not ignored: the
request fails with a hard error raised by the query layer. -/
theorem C3_malformed_numeric_inputs :
    (∀ (db : DB) (req : CarListRequest) (s : String), pyInt? s = none →
        car_list_view db { req with page := some s } =
          car_list_view db { req with page := none }) ∧
    (∀ s : String, pyInt? s = none →
        parse_per_page (some s) = parse_per_page none) ∧
    (∀ (db : DB) (req : CarListRequest) (s : String),
        req.year = some s → s ≠ "" → pyInt? s = none →
        ∃ e, car_list_view db req = .error e) ∧
    (∀ (db : DB) (req : CarListRequest) (s : String),
        req.min_price = some s → s ≠ "" → parseDecimal? s = none →
        ∃ e, car_list_view db req = .error e) ∧
    (∀ (db : DB) (req : CarListRequest) (s : String),
        req.max_price = some s → s ≠ "" → parseDecimal? s = none →
        ∃ e, car_list_view db req = .error e) := by
  refine ⟨?_, ?_, ?_, ?_, ?_⟩
  · intro db req s hp
    unfold car_list_view
    have h1 : filtered_cars db { req with page := some s } =
        filtered_cars db { req with page := none } := rfl
    rw [h1]
    cases hfc : filtered_cars db { req with page := none } with
    | error e => rfl
    | ok fc =>
      dsimp only
      rw [get_page_number_malformed s hp]
      exact rfl
  · intro s hp
    unfold parse_per_page
    dsimp only
    rw [hp]
  · intro db req s hy hs hp
    exact car_list_view_error_of_filtered db req
      (filtered_cars_year_malformed db req s hy hs hp)
  · intro db req s hm hs hp
    exact car_list_view_error_of_filtered db req
      (filtered_cars_min_price_malformed db req s hm hs hp)
  · intro db req s hm hs hp
    exact car_list_view_error_of_filtered db req
      (filtered_cars_max_price_malformed db req s hm hs hp)

/-- Witness for C3 amended: a malformed page value on the concrete
database yields the same result as an absent one. -/
theorem C3_malformed_numeric_inputs_witness :
    car_list_view exDB { reqEmpty with page := some "abc" } =
      car_list_view exDB { reqEmpty with page := none } :=
  C3_malformed_numeric_inputs.1 exDB reqEmpty "abc" (by decide)

theorem sortKeyLe_total (s : String) (a b : Car) :
    sortKeyLe s a b = true ∨ sortKeyLe s b a = true := by
  unfold sortKeyLe
  split_ifs <;> simp only [decide_eq_true_eq] <;> exact le_total _ _

theorem sortKeyLe_trans (s : String) (a b c : Car) (h1 : sortKeyLe s a b = true)
    (h2 : sortKeyLe s b c = true) : sortKeyLe s a c = true := by
  unfold sortKeyLe at h1 h2 ⊢
  split_ifs at h1 h2 ⊢ <;> simp only [decide_eq_true_eq] at h1 h2 ⊢ <;> omega

theorem parse_per_page_pos (p : Option String) : 0 < parse_per_page p := by
  unfold parse_per_page
  cases p with
  | none => decide
  | some s =>
    dsimp only
    cases hv : pyInt? s with
    | none => decide
    | some v =>
      dsimp only
      by_cases h : v = 9 ∨ v = 15 ∨ v = 20
      · rw [if_pos h]
        rcases h with rfl | rfl | rfl <;> decide
      · rw [if_neg h]
        decide

theorem join_chunks {α : Type} (pp : Nat) (hpp : 0 < pp) :
    ∀ (n : Nat) (l : List α), l.length ≤ n * pp →
      ((List.range n).map (fun i => (l.drop (i * pp)).take pp)).flatten = l := by
  intro n
  induction n with
  | zero =>
    intro l hl
    simp only [Nat.zero_mul, Nat.le_zero] at hl
    have hnil : l = [] := List.length_eq_zero.mp hl
    subst hnil
    rfl
  | succ n ih =>
    intro l hl
    have hstep : ∀ i : Nat, (l.drop (Nat.succ i * pp)).take pp =
        ((l.drop pp).drop (i * pp)).take pp := by
      intro i
      rw [List.drop_drop, Nat.succ_mul, Nat.add_comm pp (i * pp)]
    calc ((List.range (n + 1)).map (fun i => (l.drop (i * pp)).take pp)).flatten
        = l.take pp ++ ((List.range n).map (fun i =>
            ((l.drop pp).drop (i * pp)).take pp)).flatten := by
          rw [List.range_succ_eq_map]
          simp only [List.map_cons, List.map_map, List.flatten_cons, Nat.zero_mul,
            List.drop_zero, Function.comp]
          congr 1
          refine congrArg List.flatten (List.map_congr_left (fun i _ => ?_))
          exact hstep i
      _ = l.take pp ++ l.drop pp := by
          rw [ih (l.drop pp) ?_]
          rw [List.length_drop]
          rw [Nat.succ_mul] at hl
          omega
      _ = l := List.take_append_drop pp l

theorem length_le_num_pages_mul (len pp : Nat) (hpp : 0 < pp) :
    len ≤ num_pages len pp * pp := by
  unfold num_pages
  rcases Nat.eq_zero_or_pos len with rfl | hlen
  · simp
  · have hmax : max 1 ((len + pp - 1) / pp) = (len + pp - 1) / pp := by
      apply Nat.max_eq_right
      rw [Nat.le_div_iff_mul_le hpp]
      omega
    rw [hmax]
    have hdm := Nat.div_add_mod (len + pp - 1) pp
    have hmod : (len + pp - 1) % pp < pp := Nat.mod_lt _ hpp
    rw [Nat.mul_comm]
    set M := pp * ((len + pp - 1) / pp) with hM
    omega

/-- C4: for a fixed filter set, sort key and page size, the Catalog
Filter Engine orders the filtered rows by a total order — the requested
ORDER BY key with ties broken by the stable secondary key of original
insertion order — and paginating that sorted list is a partition:
concatenating the page slices for pages 1..num_pages reproduces exactly
the sorted result set (a permutation of the filtered rows, hence no
omission and no duplication), and the page returned by the view for an
in-range page number k is precisely the k-th slice. -/
theorem C4_sort_and_pagination_partition :
    ∀ (db : DB) (req : CarListRequest) (fc : List Car),
      filtered_cars db req = .ok fc →
      (((List.range (num_pages (sortCars (effective_sort req) fc).length
            (parse_per_page req.per_page))).map (fun i =>
          ((sortCars (effective_sort req) fc).drop
            (i * parse_per_page req.per_page)).take
            (parse_per_page req.per_page))).flatten =
        sortCars (effective_sort req) fc) ∧
      (sortCars (effective_sort req) fc).Perm fc ∧
      List.Pairwise (fun a b => sortKeyLe (effective_sort req) a b = true)
        (sortCars (effective_sort req) fc) ∧
      (∀ tied : List Car,
        List.Pairwise (fun a b => sortKeyLe (effective_sort req) a b = true) tied →
        tied.Sublist fc → tied.Sublist (sortCars (effective_sort req) fc)) ∧
      (∀ (s : String) (k : Int) (res : CarListResult),
        pyInt? s = some k → 1 ≤ k →
        k ≤ (num_pages (sortCars (effective_sort req) fc).length
            (parse_per_page req.per_page) : Int) →
        car_list_view db { req with page := some s } = .ok res →
        res.page_cars = ((sortCars (effective_sort req) fc).drop
          ((k.toNat - 1) * parse_per_page req.per_page)).take
          (parse_per_page req.per_page)) := by
  intro db req fc hfc
  haveI htot : IsTotal Car (fun a b => sortKeyLe (effective_sort req) a b = true) :=
    ⟨fun a b => sortKeyLe_total _ a b⟩
  haveI htrans : IsTrans Car (fun a b => sortKeyLe (effective_sort req) a b = true) :=
    ⟨fun a b c => sortKeyLe_trans _ a b c⟩
  refine ⟨?_, ?_, ?_, ?_, ?_⟩
  · exact join_chunks (parse_per_page req.per_page)
      (parse_per_page_pos req.per_page) _ _
      (length_le_num_pages_mul _ _ (parse_per_page_pos req.per_page))
  · exact List.perm_insertionSort _ fc
  · exact List.sorted_insertionSort _ fc
  · intro tied hpair hsub
    exact List.sublist_insertionSort hpair hsub
  · intro s k res hk h1k hknp hview
    have hfc2 : filtered_cars db { req with page := some s } = .ok fc := hfc
    have hes : effective_sort { req with page := some s } = effective_sort req := rfl
    unfold car_list_view at hview
    rw [hfc2] at hview
    simp only [Except.ok.injEq] at hview
    subst hview
    dsimp only
    rw [hes]
    unfold get_page_number
    dsimp only
    rw [hk]
    dsimp only
    rw [if_neg (by omega), if_neg (by omega)]

/-- Witness for C4 at the concrete database and empty request. -/
theorem C4_sort_and_pagination_partition_witness :
    ((List.range (num_pages (sortCars (effective_sort reqEmpty) exFiltered).length
        (parse_per_page reqEmpty.per_page))).map (fun i =>
      ((sortCars (effective_sort reqEmpty) exFiltered).drop
        (i * parse_per_page reqEmpty.per_page)).take
        (parse_per_page reqEmpty.per_page))).flatten =
      sortCars (effective_sort reqEmpty) exFiltered :=
  (C4_sort_and_pagination_partition exDB reqEmpty exFiltered (by decide)).1

end KaiKaro
